import Mathlib

/-! Shallow embedding of the detection and escalation core of the no-csam-bot
repository: perceptual-hash matching (src/detection/hashMatcher.ts), the
classifier adapters (src/detection/apiDetector.ts and worker/index.ts), the
scan pipeline and its bounded-concurrency queue
(src/detection/detectionPipeline.ts), the offense-escalation state machine
(src/bot/handlers/banManager.ts and timeoutManager.ts), and the message
dispatch (src/bot/events/messageCreate.ts).

Confidence scores are modelled as rationals.  Wall-clock fields
(processingTimeMs, timestamps) and logging are omitted: no claim mentions
them.  External calls (axios, prisma, the chat platform) are modelled by
passing their outcomes as explicit parameters or by explicit state. -/

/-- The `config.detection` threshold fields consumed by the pipeline
(src/config/config.ts): `detectionThreshold` (default 0.85) and
`reviewThreshold` (default 0.70). -/
structure DetectionConfig where
  detectionThreshold : ℚ
  reviewThreshold : ℚ
  deriving DecidableEq

/-- Character-by-character match count: the loop of `calculateHammingDistance`
in hashMatcher.ts (`if (hash1[i] === hash2[i]) matches++`). -/
def countMatches : List Char → List Char → ℕ
  | c₁ :: r₁, c₂ :: r₂ => (if c₁ = c₂ then 1 else 0) + countMatches r₁ r₂
  | _, _ => 0

/-- `calculateHammingDistance` from hashMatcher.ts: despite the name it
returns a normalized similarity, `matches / hash1.length`, and returns 0 when
the lengths differ.  On two empty strings JavaScript computes `0/0 = NaN`
(which is neither 1.0 nor ≥ 0.95); the rational model follows Lean's
`0/0 = 0` convention, which likewise is neither 1.0 nor ≥ 0.95. -/
def calculateHammingDistance (hash1 hash2 : String) : ℚ :=
  if hash1.length ≠ hash2.length then 0
  else (countMatches hash1.data hash2.data : ℚ) / (hash1.length : ℚ)

/-- A row of the `hashDatabase` table as read by `checkHashMatch`
(`where: { active: true }, select: { hash, severity }`; the `active` flag is
kept in the model so the query's filter is explicit). -/
structure KnownHash where
  hash : String
  severity : String
  active : Bool
  deriving DecidableEq

/-- `HashMatchResult` from hashMatcher.ts (without processingTimeMs). -/
structure HashMatchResult where
  matched : Bool
  hash : String
  matchedHash : Option String
  similarity : Option ℚ
  deriving DecidableEq

/-- The loop condition of `checkHashMatch`: `similarity >= 0.95`. -/
def hashMatches (hash : String) (k : KnownHash) : Bool :=
  decide ((95 : ℚ) / 100 ≤ calculateHammingDistance hash k.hash)

/-- `checkHashMatch` from hashMatcher.ts, with the perceptual hash of the
image (computed externally by sharp/blockhash) and the table contents passed
in.  The code iterates the active rows in order and returns on the FIRST row
whose similarity reaches 0.95, which is `List.find?`. -/
def checkHashMatch (hash : String) (knownHashes : List KnownHash) : HashMatchResult :=
  match (knownHashes.filter (fun k => k.active)).find? (hashMatches hash) with
  | some k => ⟨true, hash, some k.hash, some (calculateHammingDistance hash k.hash)⟩
  | none => ⟨false, hash, none, none⟩

/-- `APIDetectionResult` from apiDetector.ts (without labels and
processingTimeMs). -/
structure APIDetectionResult where
  detected : Bool
  confidence : ℚ
  provider : String
  error : Option String
  deriving DecidableEq

/-- Outcome of the Sightengine HTTP call in `detectWithSightengine`:
the provider may be unconfigured, the axios call may throw (network error,
non-2xx, timeout) with a message, or it returns scores whose maximum is the
confidence. -/
inductive SightengineOutcome where
  | notConfigured : SightengineOutcome
  | failure (msg : String) : SightengineOutcome
  | success (confidence : ℚ) : SightengineOutcome
  deriving DecidableEq

/-- `detectWithSightengine` from apiDetector.ts.  On success the detected
flag is `confidence > config.detection.detectionThreshold` (strict). -/
def detectWithSightengine (cfg : DetectionConfig) : SightengineOutcome → APIDetectionResult
  | .notConfigured =>
      ⟨false, 0, "sightengine", some "Sightengine API not configured"⟩
  | .failure msg => ⟨false, 0, "sightengine", some msg⟩
  | .success c =>
      ⟨decide (c > cfg.detectionThreshold), c, "sightengine", none⟩

/-- Success path of `detectImage` in worker/index.ts: the detected flag is
computed against the HARDCODED threshold 0.85 (`nsfwScore > 0.85`), not
against the bot's configured detectionThreshold. -/
def workerDetectImage (nsfwScore : ℚ) : APIDetectionResult :=
  ⟨decide (nsfwScore > (85 : ℚ) / 100), nsfwScore, "cloudflare-worker", none⟩

/-- Outcome of the worker HTTP call in `detectWithCloudflareWorker`: missing
configuration, a thrown axios error with a message, or a 2xx response body. -/
inductive WorkerOutcome where
  | notConfigured : WorkerOutcome
  | failure (msg : String) : WorkerOutcome
  | response (resp : APIDetectionResult) : WorkerOutcome
  deriving DecidableEq

/-- `detectWithCloudflareWorker` from apiDetector.ts: failures return
`detected=false, confidence=0` with an error message; a response body is
passed through (`detected: result.detected, confidence: result.confidence`). -/
def detectWithCloudflareWorker : WorkerOutcome → APIDetectionResult
  | .notConfigured =>
      ⟨false, 0, "cloudflare-worker", some "Cloudflare Worker URL or API key not configured"⟩
  | .failure msg => ⟨false, 0, "cloudflare-worker", some msg⟩
  | .response r => ⟨r.detected, r.confidence, "cloudflare-worker", none⟩

/-- `DetectionResult` from detectionPipeline.ts (without details and
totalProcessingTimeMs). -/
structure DetectionResult where
  flagged : Bool
  confidence : ℚ
  method : String
  requiresReview : Bool
  hash : String
  deriving DecidableEq

/-- `scanImage` from detectionPipeline.ts, with the perceptual hash, the hash
table and the classifier-adapter result passed in.  The second component
records whether `detectWithAPI` was consulted: a hash match short-circuits
with `flagged=true, confidence=1.0, method=hash_match, requiresReview=false`;
otherwise `flagged = apiResult.detected` and
`requiresReview = reviewThreshold ≤ confidence < detectionThreshold`. -/
def scanImage (hash : String) (knownHashes : List KnownHash)
    (api : APIDetectionResult) (cfg : DetectionConfig) : DetectionResult × Bool :=
  if (checkHashMatch hash knownHashes).matched then
    (⟨true, 1, "hash_match", false, (checkHashMatch hash knownHashes).hash⟩, false)
  else
    (⟨api.detected, api.confidence, api.provider,
      decide (cfg.reviewThreshold ≤ api.confidence ∧ api.confidence < cfg.detectionThreshold),
      (checkHashMatch hash knownHashes).hash⟩, true)

/-- Which provider `detectWithAPI` in apiDetector.ts selects: the worker when
`config.detection.workerUrl` is set, else Sightengine when configured, else
none.  The selected provider's call outcome is carried in the variant. -/
inductive ProviderConfig where
  | worker (o : WorkerOutcome) : ProviderConfig
  | sightengine (o : SightengineOutcome) : ProviderConfig
  | noProvider : ProviderConfig
  deriving DecidableEq

/-- `detectWithAPI` from apiDetector.ts: fixed priority order, single provider
per request; with no provider configured it returns a `provider: none` result
with an error message. -/
def detectWithAPI (cfg : DetectionConfig) : ProviderConfig → APIDetectionResult
  | .worker o => detectWithCloudflareWorker o
  | .sightengine o => detectWithSightengine cfg o
  | .noProvider => ⟨false, 0, "none", some "No API provider configured"⟩

/-- A row of the `user` table: `offenseCount` and `globallyBanned`
(banManager.ts / timeoutManager.ts). -/
structure UserRec where
  offenseCount : ℕ
  globallyBanned : Bool
  deriving DecidableEq

/-- `prisma.user.findUnique` over an association list keyed by user id. -/
def findUserIn (users : List (String × UserRec)) (u : String) : Option UserRec :=
  (users.find? (fun p => p.1 = u)).map Prod.snd

/-- `prisma.user.update` over the association list: rewrites the stored
record(s) for the key in place. -/
def updateUserIn (users : List (String × UserRec)) (u : String)
    (f : UserRec → UserRec) : List (String × UserRec) :=
  users.map (fun p => if p.1 = u then (p.1, f p.2) else p)

/-- A row of the `ban` table as written by banManager.ts. -/
structure BanRec where
  userId : String
  guildId : String
  level : ℕ
  banType : String
  active : Bool
  deriving DecidableEq

/-- A row of the `moderatorReview` table
(`{ detectionId, status }`, messageCreate.ts). -/
structure ModeratorReview where
  detectionId : String
  status : String
  deriving DecidableEq

/-- `BanResult` from banManager.ts (without the message text). -/
structure BanResult where
  success : Bool
  level : ℕ
  requiresModeratorReview : Bool
  deriving DecidableEq

/-- The persistent state touched by banManager.ts: user records, ban rows,
moderator-review rows, and the bans actually applied through the chat
platform (`guild.members.ban`), as (guildId, userId) pairs. -/
structure BMState where
  users : List (String × UserRec)
  bans : List BanRec
  reviews : List ModeratorReview
  platformBans : List (String × String)
  deriving DecidableEq

/-- `executeServerBan` from banManager.ts.  `guildFound` models
`client.guilds.cache.get(guildId)` returning a guild; `banCallOk` models
`guild.members.ban` not throwing.  Only after a successful platform ban is a
`level=1, banType=server, active=true` row created. -/
def executeServerBan (userId guildId : String) (guildFound banCallOk : Bool)
    (s : BMState) : BMState × BanResult :=
  if !guildFound then (s, ⟨false, 1, false⟩)
  else if !banCallOk then (s, ⟨false, 1, false⟩)
  else
    ({ s with platformBans := s.platformBans ++ [(guildId, userId)],
              bans := s.bans ++ [⟨userId, guildId, 1, "server", true⟩] },
     ⟨true, 1, false⟩)

/-- `queueForGlobalBan` from banManager.ts: creates a
`level=2, banType=global_pending, active=false` row and nothing else — in
particular no platform ban and no moderator-review row. -/
def queueForGlobalBan (userId guildId : String) (s : BMState) : BMState × BanResult :=
  ({ s with bans := s.bans ++ [⟨userId, guildId, 2, "global_pending", false⟩] },
   ⟨true, 2, true⟩)

/-- `handleUserOffense` from banManager.ts: create the user row if missing,
increment `offenseCount`, then branch on the updated count — exactly 1 goes
to `executeServerBan`, anything larger to `queueForGlobalBan`. -/
def handleUserOffense (userId guildId : String) (guildFound banCallOk : Bool)
    (s : BMState) : BMState × BanResult :=
  let s₁ := if (findUserIn s.users userId).isSome then s
            else { s with users := s.users ++ [(userId, ⟨0, false⟩)] }
  let cnt := ((findUserIn s₁.users userId).getD ⟨0, false⟩).offenseCount + 1
  let bump := fun (r : UserRec) => { r with offenseCount := r.offenseCount + 1 }
  let s₂ := { s₁ with users := updateUserIn s₁.users userId bump }
  if cnt = 1 then executeServerBan userId guildId guildFound banCallOk s₂
  else queueForGlobalBan userId guildId s₂

/-- A row of the `timeout` table as written by timeoutManager.ts. -/
structure TimeoutRec where
  userId : String
  guildId : String
  level : ℕ
  timeoutType : String
  active : Bool
  deriving DecidableEq

/-- The persistent state touched by timeoutManager.ts: user records, timeout
rows, every guild ban attempted in the approval fan-out, and the subset of
attempts that succeeded (both as (guildId, userId) pairs). -/
structure TMState where
  users : List (String × UserRec)
  timeouts : List TimeoutRec
  banAttempts : List (String × String)
  bannedIn : List (String × String)
  deriving DecidableEq

/-- The `updateMany` row function of `approveGlobalBan` in timeoutManager.ts:
rows of the user with `timeoutType=pending_review` become
`global_approved, active=true`. -/
def approveUpdate (userId : String) (t : TimeoutRec) : TimeoutRec :=
  if t.userId = userId ∧ t.timeoutType = "pending_review" then
    { t with timeoutType := "global_approved", active := true }
  else t

/-- The fan-out loop of `approveGlobalBan`: every guild the bot serves is
attempted in order; a failed `guild.members.ban` (second component false) is
only logged and the loop continues with the remaining guilds. -/
def banFanout (userId : String) (guilds : List (String × Bool)) (s : TMState) : TMState :=
  match guilds with
  | [] => s
  | (gid, ok) :: rest =>
      banFanout userId rest
        { s with banAttempts := s.banAttempts ++ [(gid, userId)],
                 bannedIn := if ok then s.bannedIn ++ [(gid, userId)] else s.bannedIn }

/-- `approveGlobalBan` from timeoutManager.ts: set `globallyBanned=true`
(`prisma.user.update` throws for a missing user, caught as a `false` return
with no state change), transition the user's pending rows to
`global_approved, active=true`, fan the ban out to every guild, and report
success; per-guild ban failures do not affect the return value. -/
def approveGlobalBan (userId : String) (guilds : List (String × Bool))
    (s : TMState) : TMState × Bool :=
  if (findUserIn s.users userId).isSome then
    let markBanned := fun (r : UserRec) => { r with globallyBanned := true }
    let s₁ := { s with users := updateUserIn s.users userId markBanned,
                       timeouts := s.timeouts.map (approveUpdate userId) }
    (banFanout userId guilds s₁, true)
  else (s, false)

/-- The `updateMany` row function of `rejectGlobalBan` in timeoutManager.ts:
rows of the user with `timeoutType=pending_review` become
`global_rejected, active=false`. -/
def rejectUpdate (userId : String) (t : TimeoutRec) : TimeoutRec :=
  if t.userId = userId ∧ t.timeoutType = "pending_review" then
    { t with timeoutType := "global_rejected", active := false }
  else t

/-- `rejectGlobalBan` from timeoutManager.ts: transition the user's pending
rows and return true; no user-row update, no platform ban. -/
def rejectGlobalBan (userId : String) (s : TMState) : TMState × Bool :=
  ({ s with timeouts := s.timeouts.map (rejectUpdate userId) }, true)

/-- A row of the `detection` table (the fields the dispatch logic uses). -/
structure DetectionRecordRow where
  id : String
  messageId : String
  flagged : Bool
  actionTaken : String
  deriving DecidableEq

/-- The state touched by `processImageAttachment` in messageCreate.ts:
detection rows, moderator-review rows, deleted message ids, the
(userId, guildId) pairs passed to `handleUserOffense`, and the detection ids
for which moderators were notified of a pending review. -/
structure MsgState where
  detections : List DetectionRecordRow
  reviews : List ModeratorReview
  deletedMessages : List String
  offenseHandled : List (String × String)
  reviewNotified : List String
  deriving DecidableEq

/-- `handleFlaggedContent` from messageCreate.ts: delete the message when
`autoDelete`, mark the detection rows deleted, and when `autoBan` invoke the
offense-escalation routine.  (The later `actionTaken` rewrite recording the
ban level, the moderator alert and the DM are outward notifications the
claims do not touch.) -/
def handleFlaggedContent (msgId userId guildId : String) (autoDelete autoBan : Bool)
    (s : MsgState) : MsgState :=
  let s₁ := if autoDelete then { s with deletedMessages := s.deletedMessages ++ [msgId] } else s
  let markDeleted := fun (r : DetectionRecordRow) =>
    if r.messageId = msgId then { r with actionTaken := "deleted" } else r
  let s₂ := { s₁ with detections := s₁.detections.map markDeleted }
  if autoBan then { s₂ with offenseHandled := s₂.offenseHandled ++ [(userId, guildId)] } else s₂

/-- `handleReviewRequired` from messageCreate.ts: `findFirst` ordered by
`createdAt desc` is the most recently created row for the message (rows are
appended in creation order, so search the reversed list); when found, create
a `pending` moderator-review row and notify moderators. -/
def handleReviewRequired (msgId : String) (s : MsgState) : MsgState :=
  match s.detections.reverse.find? (fun r => r.messageId = msgId) with
  | some r =>
      { s with reviews := s.reviews ++ [⟨r.id, "pending"⟩],
               reviewNotified := s.reviewNotified ++ [r.id] }
  | none => s

/-- `processImageAttachment` from messageCreate.ts: persist the detection row,
then dispatch — `flagged && !requiresReview` to `handleFlaggedContent`,
otherwise `requiresReview` to `handleReviewRequired`, otherwise nothing. -/
def processImageAttachment (msgId userId guildId detId : String) (d : DetectionResult)
    (autoDelete autoBan : Bool) (s : MsgState) : MsgState :=
  let s₀ := { s with detections := s.detections ++
                [⟨detId, msgId, d.flagged, if d.flagged then "pending" else "none"⟩] }
  if d.flagged && !d.requiresReview then handleFlaggedContent msgId userId guildId autoDelete autoBan s₀
  else if d.requiresReview then handleReviewRequired msgId s₀
  else s₀

/-- The state of `DetectionQueue` in detectionPipeline.ts (`queue`,
`processing`), extended with the admission history and the submission history
so FIFO admission can be stated.  Requests are identified by numbers. -/
structure QueueState where
  queue : List ℕ
  processing : ℕ
  admitted : List ℕ
  submitted : List ℕ
  deriving DecidableEq

/-- `processNext` from detectionPipeline.ts: return unless the in-flight count
is below `maxConcurrentScans` and the queue is non-empty; otherwise shift the
oldest request off the queue and admit it (`this.processing++`). -/
def processNext (N : ℕ) (s : QueueState) : QueueState :=
  if N ≤ s.processing then s
  else
    match s.queue with
    | [] => s
    | r :: rest =>
        { queue := rest, processing := s.processing + 1,
          admitted := s.admitted ++ [r], submitted := s.submitted }

/-- The queue's two events: `add` (push the request, then `processNext`) and
scan completion (decrement `processing` in the `finally`, then
`processNext`).  Scans complete in any order, so completion is a separate
nondeterministic event. -/
inductive QueueStep (N : ℕ) : QueueState → QueueState → Prop
  | submit (r : ℕ) (s : QueueState) :
      QueueStep N s (processNext N { s with queue := s.queue ++ [r], submitted := s.submitted ++ [r] })
  | complete (s : QueueState) (h : 0 < s.processing) :
      QueueStep N s (processNext N { s with processing := s.processing - 1 })

/-- The queue singleton `detectionQueue` starts empty with nothing in
flight. -/
def initQueue : QueueState := ⟨[], 0, [], []⟩

/-- States the queue can reach from its initial state. -/
inductive ReachableQueue (N : ℕ) : QueueState → Prop
  | init : ReachableQueue N initQueue
  | step {s t : QueueState} : ReachableQueue N s → QueueStep N s t → ReachableQueue N t

/-! Helper lemmas. -/

theorem countMatches_comm (l₁ l₂ : List Char) : countMatches l₁ l₂ = countMatches l₂ l₁ := by
  induction l₁ generalizing l₂ with
  | nil => cases l₂ <;> rfl
  | cons c₁ r₁ ih =>
    cases l₂ with
    | nil => rfl
    | cons c₂ r₂ =>
      simp only [countMatches, ih r₂, eq_comm]

theorem countMatches_self (l : List Char) : countMatches l l = l.length := by
  induction l with
  | nil => rfl
  | cons c r ih => simp [countMatches, ih, Nat.add_comm]

theorem calculateHammingDistance_eval (h₁ h₂ : String) (m n : ℕ)
    (hm : countMatches h₁.data h₂.data = m) (hl₁ : h₁.length = n) (hl₂ : h₂.length = n) :
    calculateHammingDistance h₁ h₂ = (m : ℚ) / (n : ℚ) := by
  simp [calculateHammingDistance, hm, hl₁, hl₂]

theorem string_length_ne_zero (s : String) (h : s ≠ "") : s.length ≠ 0 := by
  intro hlen
  apply h
  cases s with
  | mk data =>
    have hd : data = [] := List.length_eq_zero.mp hlen
    subst hd
    rfl

/-- C9 (amended): hash similarity is symmetric for all inputs, two hashes of
differing length have similarity 0 rather than raising an error, and
`similarity(h,h) = 1.0` for every NON-empty hash `h`; for the empty hash the
code divides 0 by 0 (NaN in JavaScript, 0 in this rational model), which is
not 1.0. -/
theorem calculateHammingDistance_props (h₁ h₂ : String) :
    calculateHammingDistance h₁ h₂ = calculateHammingDistance h₂ h₁ ∧
    (h₁.length ≠ h₂.length → calculateHammingDistance h₁ h₂ = 0) ∧
    (h₁ ≠ "" → calculateHammingDistance h₁ h₁ = 1) := by
  refine ⟨?_, ?_, ?_⟩
  · by_cases hlen : h₁.length = h₂.length
    · simp only [calculateHammingDistance, hlen, countMatches_comm h₁.data h₂.data]
    · have hlen' : h₂.length ≠ h₁.length := fun h => hlen h.symm
      simp [calculateHammingDistance, hlen, hlen']
  · intro hlen
    simp [calculateHammingDistance, hlen]
  · intro hne
    have hl : h₁.length ≠ 0 := string_length_ne_zero h₁ hne
    rw [calculateHammingDistance_eval h₁ h₁ h₁.length h₁.length
      (countMatches_self h₁.data) rfl rfl]
    exact div_self (by exact_mod_cast hl)

/-- Witness for C9 at concrete hashes: symmetry at ("ab","ba"), similarity 0
for the length-mismatched pair ("a","bc"), and self-similarity 1 for "ab". -/
theorem calculateHammingDistance_props_witness :
    calculateHammingDistance "ab" "ba" = calculateHammingDistance "ba" "ab" ∧
    calculateHammingDistance "a" "bc" = 0 ∧
    calculateHammingDistance "ab" "ab" = 1 := by
  refine ⟨(calculateHammingDistance_props "ab" "ba").1,
    (calculateHammingDistance_props "a" "bc").2.1 (by decide),
    (calculateHammingDistance_props "ab" "ba").2.2 (by decide)⟩

/-- Counterexample for C9 as stated: on the empty hash, self-similarity is the
division 0/0 — 0 in the rational model (NaN in JavaScript) — and not 1.0, so
"similarity(h,h) = 1.0 for every hash h (including the empty hash)" fails at
h = "". -/
theorem calculateHammingDistance_empty_counterexample :
    calculateHammingDistance "" "" ≠ 1 := by
  rw [calculateHammingDistance_eval "" "" 0 0 (by decide) (by decide) (by decide)]
  norm_num

theorem scanImage_no_match (hash : String) (kh : List KnownHash) (api : APIDetectionResult)
    (cfg : DetectionConfig) (hnm : (checkHashMatch hash kh).matched = false) :
    scanImage hash kh api cfg =
      (⟨api.detected, api.confidence, api.provider,
        decide (cfg.reviewThreshold ≤ api.confidence ∧ api.confidence < cfg.detectionThreshold),
        (checkHashMatch hash kh).hash⟩, true) := by
  simp [scanImage, hnm]

/-- C1 (amended): for the provider branch of the pipeline with the Sightengine
adapter, every confidence gets exactly one outcome, but the flagged band's
lower boundary is EXCLUSIVE, not inclusive: confidence strictly above
detectionThreshold is flagged; `reviewThreshold ≤ c < detectionThreshold` is
review; `c < reviewThreshold` is pass; and at `c = detectionThreshold`
exactly, the result is pass (flagged=false, requiresReview=false), not
flagged, because the provider computes `detected = confidence > threshold`. -/
theorem scanImage_sightengine_partition (hash : String) (kh : List KnownHash) (c dt rt : ℚ)
    (hnm : (checkHashMatch hash kh).matched = false) (hrd : rt < dt) :
    (dt < c →
      (scanImage hash kh (detectWithSightengine ⟨dt, rt⟩ (.success c)) ⟨dt, rt⟩).1.flagged = true ∧
      (scanImage hash kh (detectWithSightengine ⟨dt, rt⟩ (.success c)) ⟨dt, rt⟩).1.requiresReview = false) ∧
    (rt ≤ c ∧ c < dt →
      (scanImage hash kh (detectWithSightengine ⟨dt, rt⟩ (.success c)) ⟨dt, rt⟩).1.flagged = false ∧
      (scanImage hash kh (detectWithSightengine ⟨dt, rt⟩ (.success c)) ⟨dt, rt⟩).1.requiresReview = true) ∧
    (c < rt →
      (scanImage hash kh (detectWithSightengine ⟨dt, rt⟩ (.success c)) ⟨dt, rt⟩).1.flagged = false ∧
      (scanImage hash kh (detectWithSightengine ⟨dt, rt⟩ (.success c)) ⟨dt, rt⟩).1.requiresReview = false) ∧
    (c = dt →
      (scanImage hash kh (detectWithSightengine ⟨dt, rt⟩ (.success c)) ⟨dt, rt⟩).1.flagged = false ∧
      (scanImage hash kh (detectWithSightengine ⟨dt, rt⟩ (.success c)) ⟨dt, rt⟩).1.requiresReview = false) := by
  have hs := scanImage_no_match hash kh (detectWithSightengine ⟨dt, rt⟩ (.success c)) ⟨dt, rt⟩ hnm
  have hflag : (scanImage hash kh (detectWithSightengine ⟨dt, rt⟩ (.success c)) ⟨dt, rt⟩).1.flagged
      = decide (c > dt) := by rw [hs]; rfl
  have hrev : (scanImage hash kh (detectWithSightengine ⟨dt, rt⟩ (.success c)) ⟨dt, rt⟩).1.requiresReview
      = decide (rt ≤ c ∧ c < dt) := by rw [hs]; rfl
  refine ⟨fun h => ?_, fun h => ?_, fun h => ?_, fun h => ?_⟩ <;>
    simp only [hflag, hrev, decide_eq_true_eq, decide_eq_false_iff_not, not_and, not_lt]
  · exact ⟨h, fun _ => le_of_lt h⟩
  · exact ⟨le_of_lt h.2, h⟩
  · exact ⟨by linarith, fun hc => absurd (le_trans hc (le_of_lt h)) (by linarith)⟩
  · subst h
    exact ⟨le_refl c, fun _ => le_refl c⟩

/-- Witness for C1's amended partition: thresholds dt=1/2, rt=1/4 and
confidence 3/4 (strictly above dt) give flagged=true, requiresReview=false. -/
theorem scanImage_sightengine_partition_witness :
    (scanImage "h" [] (detectWithSightengine ⟨1/2, 1/4⟩ (.success (3/4))) ⟨1/2, 1/4⟩).1.flagged = true ∧
    (scanImage "h" [] (detectWithSightengine ⟨1/2, 1/4⟩ (.success (3/4))) ⟨1/2, 1/4⟩).1.requiresReview = false :=
  (scanImage_sightengine_partition "h" [] (3/4) (1/2) (1/4) rfl (by norm_num)).1 (by norm_num)

/-- Counterexample for C1 as stated: with detectionThreshold 1/2 and
reviewThreshold 1/4, a Sightengine confidence of exactly 1/2 satisfies
`c ≥ detectionThreshold`, yet the scan result is flagged=false and
requiresReview=false (pass) — the claim demands flagged=true at the
boundary. -/
theorem scanImage_boundary_counterexample :
    (1:ℚ)/4 < 1/2 ∧ (1:ℚ)/2 ≤ 1/2 ∧
    (scanImage "h" [] (detectWithSightengine ⟨1/2, 1/4⟩ (.success (1/2))) ⟨1/2, 1/4⟩).1.flagged = false ∧
    (scanImage "h" [] (detectWithSightengine ⟨1/2, 1/4⟩ (.success (1/2))) ⟨1/2, 1/4⟩).1.requiresReview = false := by
  have hs := scanImage_no_match "h" [] (detectWithSightengine ⟨1/2, 1/4⟩ (.success (1/2))) ⟨1/2, 1/4⟩ rfl
  refine ⟨by norm_num, by norm_num, ?_, ?_⟩ <;> rw [hs] <;> simp [detectWithSightengine]

/-- C2 (amended): `flagged` and `requiresReview` are mutually exclusive for
every hash-match result and for every provider result whose `detected` flag
is computed against the configured detectionThreshold (the Sightengine
adapter, in all its outcomes).  The unamended claim fails for the worker
provider, whose hardcoded 0.85 threshold can sit below the configured one. -/
theorem scanImage_flagged_review_exclusive (hash : String) (kh : List KnownHash)
    (cfg : DetectionConfig) (o : SightengineOutcome)
    (hf : (scanImage hash kh (detectWithSightengine cfg o) cfg).1.flagged = true) :
    (scanImage hash kh (detectWithSightengine cfg o) cfg).1.requiresReview = false := by
  by_cases hm : (checkHashMatch hash kh).matched
  · simp [scanImage, hm]
  · have hmm : (checkHashMatch hash kh).matched = false := by simpa using hm
    have hs := scanImage_no_match hash kh (detectWithSightengine cfg o) cfg hmm
    rw [hs] at hf ⊢
    cases o with
    | notConfigured => simp [detectWithSightengine] at hf
    | failure msg => simp [detectWithSightengine] at hf
    | success c =>
      have hc : cfg.detectionThreshold < c := by
        simpa [detectWithSightengine] using hf
      show decide (cfg.reviewThreshold ≤ c ∧ c < cfg.detectionThreshold) = false
      simp only [decide_eq_false_iff_not, not_and, not_lt]
      exact fun _ => le_of_lt hc

/-- Witness for C2's amended exclusivity: a Sightengine confidence 3/4 above
detectionThreshold 1/2 is flagged, and requiresReview is false. -/
theorem scanImage_flagged_review_exclusive_witness :
    (scanImage "hh" [] (detectWithSightengine ⟨1/2, 1/4⟩ (.success (3/4))) ⟨1/2, 1/4⟩).1.requiresReview = false := by
  apply scanImage_flagged_review_exclusive
  have hs := scanImage_no_match "hh" [] (detectWithSightengine ⟨1/2, 1/4⟩ (.success (3/4))) ⟨1/2, 1/4⟩ rfl
  rw [hs]
  simp [detectWithSightengine]
  norm_num

/-- Counterexample for C2 as stated: the worker's detected flag uses the
hardcoded threshold 0.85; with configured detectionThreshold 9/10 and
reviewThreshold 7/10, a worker score of 87/100 produces a scan result with
flagged=true AND requiresReview=true simultaneously. -/
theorem worker_threshold_counterexample :
    (scanImage "h" [] (detectWithCloudflareWorker (.response (workerDetectImage (87/100)))) ⟨9/10, 7/10⟩).1.flagged = true ∧
    (scanImage "h" [] (detectWithCloudflareWorker (.response (workerDetectImage (87/100)))) ⟨9/10, 7/10⟩).1.requiresReview = true := by
  have hs := scanImage_no_match "h" [] (detectWithCloudflareWorker (.response (workerDetectImage (87/100)))) ⟨9/10, 7/10⟩ rfl
  constructor <;> rw [hs] <;> simp [detectWithCloudflareWorker, workerDetectImage] <;> norm_num

/-- C5 (amended): every failure mode of the selected provider — worker not
configured, worker call failed with message `msg`, or no provider configured
at all — yields `detected=false, confidence=0` and a non-empty error message
instead of an exception, and the scan result built from it has flagged=false;
it also has requiresReview=false WHENEVER `0 < reviewThreshold` (with
`reviewThreshold ≤ 0` the zero-confidence failure result falls inside the
review band, see the counterexample). -/
theorem classify_failure_fail_open (hash : String) (kh : List KnownHash) (dt rt : ℚ)
    (msg : String) (hnm : (checkHashMatch hash kh).matched = false) (hmsg : msg ≠ "")
    (hrt : 0 < rt) :
    (detectWithAPI ⟨dt, rt⟩ (.worker .notConfigured)).detected = false ∧
    (detectWithAPI ⟨dt, rt⟩ (.worker .notConfigured)).confidence = 0 ∧
    (detectWithAPI ⟨dt, rt⟩ (.worker .notConfigured)).error = some "Cloudflare Worker URL or API key not configured" ∧
    (detectWithAPI ⟨dt, rt⟩ (.worker (.failure msg))).detected = false ∧
    (detectWithAPI ⟨dt, rt⟩ (.worker (.failure msg))).confidence = 0 ∧
    (detectWithAPI ⟨dt, rt⟩ (.worker (.failure msg))).error = some msg ∧
    (detectWithAPI ⟨dt, rt⟩ (.worker (.failure msg))).error ≠ some "" ∧
    (detectWithAPI ⟨dt, rt⟩ .noProvider).detected = false ∧
    (detectWithAPI ⟨dt, rt⟩ .noProvider).confidence = 0 ∧
    (detectWithAPI ⟨dt, rt⟩ .noProvider).error = some "No API provider configured" ∧
    (scanImage hash kh (detectWithAPI ⟨dt, rt⟩ (.worker .notConfigured)) ⟨dt, rt⟩).1.flagged = false ∧
    (scanImage hash kh (detectWithAPI ⟨dt, rt⟩ (.worker .notConfigured)) ⟨dt, rt⟩).1.requiresReview = false ∧
    (scanImage hash kh (detectWithAPI ⟨dt, rt⟩ (.worker (.failure msg))) ⟨dt, rt⟩).1.flagged = false ∧
    (scanImage hash kh (detectWithAPI ⟨dt, rt⟩ (.worker (.failure msg))) ⟨dt, rt⟩).1.requiresReview = false ∧
    (scanImage hash kh (detectWithAPI ⟨dt, rt⟩ .noProvider) ⟨dt, rt⟩).1.flagged = false ∧
    (scanImage hash kh (detectWithAPI ⟨dt, rt⟩ .noProvider) ⟨dt, rt⟩).1.requiresReview = false := by
  have h₁ := scanImage_no_match hash kh (detectWithAPI ⟨dt, rt⟩ (.worker .notConfigured)) ⟨dt, rt⟩ hnm
  have h₂ := scanImage_no_match hash kh (detectWithAPI ⟨dt, rt⟩ (.worker (.failure msg))) ⟨dt, rt⟩ hnm
  have h₃ := scanImage_no_match hash kh (detectWithAPI ⟨dt, rt⟩ .noProvider) ⟨dt, rt⟩ hnm
  have hrev : decide (rt ≤ (0:ℚ) ∧ (0:ℚ) < dt) = false := by
    simp only [decide_eq_false_iff_not, not_and, not_lt]
    intro hle
    exact absurd (lt_of_lt_of_le hrt hle) (lt_irrefl 0)
  refine ⟨rfl, rfl, rfl, rfl, rfl, rfl, ?_, rfl, rfl, rfl, ?_, ?_, ?_, ?_, ?_, ?_⟩
  · simpa [detectWithAPI, detectWithCloudflareWorker] using hmsg
  · rw [h₁]; rfl
  · rw [h₁]; exact hrev
  · rw [h₂]; rfl
  · rw [h₂]; exact hrev
  · rw [h₃]; rfl
  · rw [h₃]; exact hrev

/-- Witness for C5's amended fail-open property at default-like thresholds
dt=17/20, rt=7/10 and failure message "timeout". -/
theorem classify_failure_fail_open_witness :
    (detectWithAPI ⟨17/20, 7/10⟩ (.worker (.failure "timeout"))).detected = false ∧
    (detectWithAPI ⟨17/20, 7/10⟩ (.worker (.failure "timeout"))).confidence = 0 ∧
    (scanImage "h" [] (detectWithAPI ⟨17/20, 7/10⟩ (.worker (.failure "timeout"))) ⟨17/20, 7/10⟩).1.flagged = false ∧
    (scanImage "h" [] (detectWithAPI ⟨17/20, 7/10⟩ (.worker (.failure "timeout"))) ⟨17/20, 7/10⟩).1.requiresReview = false := by
  have h := classify_failure_fail_open "h" [] (17/20) (7/10) "timeout" rfl (by decide) (by norm_num)
  obtain ⟨h1, h2, h3, h4, h5, h6, h7, h8, h9, h10, h11, h12, h13, h14, h15, h16⟩ := h
  exact ⟨h4, h5, h13, h14⟩

/-- Counterexample for C5 as stated: with reviewThreshold 0 (admissible — the
configuration only requires reviewThreshold < detectionThreshold), a provider
failure still degrades to detected=false/confidence=0, but the scan result
has requiresReview=true, not false as the claim demands. -/
theorem classify_failure_review_band_counterexample :
    (0:ℚ) < 1/2 ∧
    (detectWithAPI ⟨1/2, 0⟩ (.worker (.failure "timeout"))).detected = false ∧
    (detectWithAPI ⟨1/2, 0⟩ (.worker (.failure "timeout"))).error = some "timeout" ∧
    (scanImage "h" [] (detectWithAPI ⟨1/2, 0⟩ (.worker (.failure "timeout"))) ⟨1/2, 0⟩).1.flagged = false ∧
    (scanImage "h" [] (detectWithAPI ⟨1/2, 0⟩ (.worker (.failure "timeout"))) ⟨1/2, 0⟩).1.requiresReview = true := by
  have hs := scanImage_no_match "h" [] (detectWithAPI ⟨1/2, 0⟩ (.worker (.failure "timeout"))) ⟨1/2, 0⟩ rfl
  refine ⟨by norm_num, rfl, rfl, ?_, ?_⟩
  · rw [hs]; rfl
  · rw [hs]
    show decide ((0:ℚ) ≤ 0 ∧ (0:ℚ) < 1/2) = true
    simp only [decide_eq_true_eq]
    exact ⟨le_refl 0, by norm_num⟩

/-- C7 (confirmed): when some active known hash reaches similarity ≥ 0.95
with the computed perceptual hash, the FIRST such entry in the active set's
iteration order (`List.find?`) is the reported match, and the scan
short-circuits with flagged=true, confidence=1.0, method=hash_match,
requiresReview=false, and the classifier adapter is never consulted (second
component false). -/
theorem scanImage_first_match_short_circuit (hash : String) (kh : List KnownHash)
    (api : APIDetectionResult) (cfg : DetectionConfig) (k : KnownHash)
    (hfind : (kh.filter (fun x => x.active)).find? (hashMatches hash) = some k) :
    (checkHashMatch hash kh).matchedHash = some k.hash ∧
    (checkHashMatch hash kh).matched = true ∧
    (scanImage hash kh api cfg).1.flagged = true ∧
    (scanImage hash kh api cfg).1.confidence = 1 ∧
    (scanImage hash kh api cfg).1.method = "hash_match" ∧
    (scanImage hash kh api cfg).1.requiresReview = false ∧
    (scanImage hash kh api cfg).2 = false := by
  have hc : checkHashMatch hash kh =
      ⟨true, hash, some k.hash, some (calculateHammingDistance hash k.hash)⟩ := by
    simp [checkHashMatch, hfind]
  refine ⟨by rw [hc], by rw [hc], ?_, ?_, ?_, ?_, ?_⟩ <;> simp [scanImage, hc]

/-- Witness for C7: the image hash is 20 characters of a; the first active
entry differs in one position (similarity 19/20 = 0.95) and the second is a
perfect match (similarity 1.0).  The first entry is reported — demonstrating
first-match-wins, not best-match — and the scan short-circuits without
consulting the classifier adapter. -/
theorem scanImage_first_match_witness :
    (checkHashMatch "aaaaaaaaaaaaaaaaaaaa"
        [⟨"aaaaaaaaaaaaaaaaaaab", "high", true⟩, ⟨"aaaaaaaaaaaaaaaaaaaa", "high", true⟩]).matchedHash
      = some "aaaaaaaaaaaaaaaaaaab" ∧
    (scanImage "aaaaaaaaaaaaaaaaaaaa"
        [⟨"aaaaaaaaaaaaaaaaaaab", "high", true⟩, ⟨"aaaaaaaaaaaaaaaaaaaa", "high", true⟩]
        ⟨false, 0, "none", none⟩ ⟨17/20, 7/10⟩).1.flagged = true ∧
    (scanImage "aaaaaaaaaaaaaaaaaaaa"
        [⟨"aaaaaaaaaaaaaaaaaaab", "high", true⟩, ⟨"aaaaaaaaaaaaaaaaaaaa", "high", true⟩]
        ⟨false, 0, "none", none⟩ ⟨17/20, 7/10⟩).1.confidence = 1 ∧
    (scanImage "aaaaaaaaaaaaaaaaaaaa"
        [⟨"aaaaaaaaaaaaaaaaaaab", "high", true⟩, ⟨"aaaaaaaaaaaaaaaaaaaa", "high", true⟩]
        ⟨false, 0, "none", none⟩ ⟨17/20, 7/10⟩).1.method = "hash_match" ∧
    (scanImage "aaaaaaaaaaaaaaaaaaaa"
        [⟨"aaaaaaaaaaaaaaaaaaab", "high", true⟩, ⟨"aaaaaaaaaaaaaaaaaaaa", "high", true⟩]
        ⟨false, 0, "none", none⟩ ⟨17/20, 7/10⟩).1.requiresReview = false ∧
    (scanImage "aaaaaaaaaaaaaaaaaaaa"
        [⟨"aaaaaaaaaaaaaaaaaaab", "high", true⟩, ⟨"aaaaaaaaaaaaaaaaaaaa", "high", true⟩]
        ⟨false, 0, "none", none⟩ ⟨17/20, 7/10⟩).2 = false := by
  have hchd : calculateHammingDistance "aaaaaaaaaaaaaaaaaaaa" "aaaaaaaaaaaaaaaaaaab" = (19:ℚ)/20 :=
    calculateHammingDistance_eval _ _ 19 20 (by decide) (by decide) (by decide)
  have hm₁ : hashMatches "aaaaaaaaaaaaaaaaaaaa" ⟨"aaaaaaaaaaaaaaaaaaab", "high", true⟩ = true := by
    have hle : (95:ℚ)/100 ≤ calculateHammingDistance "aaaaaaaaaaaaaaaaaaaa" "aaaaaaaaaaaaaaaaaaab" := by
      rw [hchd]; norm_num
    exact decide_eq_true hle
  have hfilter :
      ([⟨"aaaaaaaaaaaaaaaaaaab", "high", true⟩,
        (⟨"aaaaaaaaaaaaaaaaaaaa", "high", true⟩ : KnownHash)].filter (fun x => x.active))
        = [⟨"aaaaaaaaaaaaaaaaaaab", "high", true⟩, ⟨"aaaaaaaaaaaaaaaaaaaa", "high", true⟩] := rfl
  have hfind :
      ([⟨"aaaaaaaaaaaaaaaaaaab", "high", true⟩,
        (⟨"aaaaaaaaaaaaaaaaaaaa", "high", true⟩ : KnownHash)].filter (fun x => x.active)).find?
          (hashMatches "aaaaaaaaaaaaaaaaaaaa")
        = some ⟨"aaaaaaaaaaaaaaaaaaab", "high", true⟩ := by
    rw [hfilter]
    exact List.find?_cons_of_pos _ hm₁
  have h := scanImage_first_match_short_circuit "aaaaaaaaaaaaaaaaaaaa"
    [⟨"aaaaaaaaaaaaaaaaaaab", "high", true⟩, ⟨"aaaaaaaaaaaaaaaaaaaa", "high", true⟩]
    ⟨false, 0, "none", none⟩ ⟨17/20, 7/10⟩ ⟨"aaaaaaaaaaaaaaaaaaab", "high", true⟩ hfind
  exact ⟨h.1, h.2.2.1, h.2.2.2.1, h.2.2.2.2.1, h.2.2.2.2.2.1, h.2.2.2.2.2.2⟩

theorem findUserIn_updateUserIn (users : List (String × UserRec)) (u : String)
    (f : UserRec → UserRec) :
    findUserIn (updateUserIn users u f) u = (findUserIn users u).map f := by
  induction users with
  | nil => rfl
  | cons p rest ih =>
    by_cases hp : p.1 = u
    · simp [findUserIn, updateUserIn, List.find?_cons, hp]
    · simp only [findUserIn, updateUserIn, List.map_cons] at ih ⊢
      rw [List.find?_cons_of_neg, List.find?_cons_of_neg]
      · exact ih
      · simp [hp]
      · simp [hp]

theorem handleUserOffense_eq (userId guildId : String) (gf bc : Bool) (s : BMState)
    (r : UserRec) (hu : findUserIn s.users userId = some r) :
    handleUserOffense userId guildId gf bc s =
      if r.offenseCount + 1 = 1 then
        executeServerBan userId guildId gf bc
          { s with users := updateUserIn s.users userId (fun x => { x with offenseCount := x.offenseCount + 1 }) }
      else
        queueForGlobalBan userId guildId
          { s with users := updateUserIn s.users userId (fun x => { x with offenseCount := x.offenseCount + 1 }) } := by
  simp [handleUserOffense, hu]

/-- C3 (amended): a confirmed offense that brings offenseCount to exactly 1
(with the originating guild found and its ban call succeeding) produces only
a level-1 `server` ban row with active=true in that guild; an offense that
brings offenseCount to 2 or more produces a level-2 `global_pending` row with
active=false and applies no platform ban in the reporting guild.  In BOTH
cases the escalation routine creates NO ModeratorReviewItem — contrary to the
unamended claim, review rows are created only by the requires-review
detection path of messageCreate.ts, not by `queueForGlobalBan`. -/
theorem handleUserOffense_escalation (userId guildId : String) (s : BMState) (r : UserRec)
    (hu : findUserIn s.users userId = some r) :
    (r.offenseCount = 0 →
      (handleUserOffense userId guildId true true s).1.bans
          = s.bans ++ [⟨userId, guildId, 1, "server", true⟩] ∧
      (handleUserOffense userId guildId true true s).1.reviews = s.reviews ∧
      (handleUserOffense userId guildId true true s).1.platformBans
          = s.platformBans ++ [(guildId, userId)] ∧
      findUserIn (handleUserOffense userId guildId true true s).1.users userId
          = some ⟨1, r.globallyBanned⟩ ∧
      (handleUserOffense userId guildId true true s).2 = ⟨true, 1, false⟩) ∧
    (1 ≤ r.offenseCount →
      (handleUserOffense userId guildId true true s).1.bans
          = s.bans ++ [⟨userId, guildId, 2, "global_pending", false⟩] ∧
      (handleUserOffense userId guildId true true s).1.reviews = s.reviews ∧
      (handleUserOffense userId guildId true true s).1.platformBans = s.platformBans ∧
      findUserIn (handleUserOffense userId guildId true true s).1.users userId
          = some ⟨r.offenseCount + 1, r.globallyBanned⟩ ∧
      (handleUserOffense userId guildId true true s).2 = ⟨true, 2, true⟩) := by
  have hupd : findUserIn (updateUserIn s.users userId (fun x => { x with offenseCount := x.offenseCount + 1 })) userId
      = some ⟨r.offenseCount + 1, r.globallyBanned⟩ := by
    rw [findUserIn_updateUserIn, hu]
    rfl
  constructor
  · intro h0
    have he := handleUserOffense_eq userId guildId true true s r hu
    rw [h0] at he
    simp only [if_pos rfl] at he
    rw [he]
    simp only [executeServerBan, Bool.not_true, Bool.false_eq_true, if_false]
    refine ⟨rfl, rfl, rfl, ?_, rfl⟩
    simpa [h0] using hupd
  · intro h1
    have he := handleUserOffense_eq userId guildId true true s r hu
    have hne : ¬ (r.offenseCount + 1 = 1) := by omega
    rw [if_neg hne] at he
    rw [he]
    simp only [queueForGlobalBan]
    exact ⟨trivial, trivial, trivial, hupd, trivial⟩

/-- Witness for C3's amended escalation: a fresh user's first offense in
guild g1 yields the level-1 server ban, and the same user's second offense in
guild g2 yields the inactive level-2 pending row with no platform ban and no
review row. -/
theorem handleUserOffense_escalation_witness :
    ((handleUserOffense "u" "g1" true true ⟨[("u", ⟨0, false⟩)], [], [], []⟩).1.bans
        = [⟨"u", "g1", 1, "server", true⟩] ∧
      (handleUserOffense "u" "g1" true true ⟨[("u", ⟨0, false⟩)], [], [], []⟩).1.reviews = [] ∧
      (handleUserOffense "u" "g1" true true ⟨[("u", ⟨0, false⟩)], [], [], []⟩).2 = ⟨true, 1, false⟩) ∧
    ((handleUserOffense "u" "g2" true true ⟨[("u", ⟨1, false⟩)], [⟨"u", "g1", 1, "server", true⟩], [], [("g1", "u")]⟩).1.bans
        = [⟨"u", "g1", 1, "server", true⟩, ⟨"u", "g2", 2, "global_pending", false⟩] ∧
      (handleUserOffense "u" "g2" true true ⟨[("u", ⟨1, false⟩)], [⟨"u", "g1", 1, "server", true⟩], [], [("g1", "u")]⟩).1.platformBans
        = [("g1", "u")] ∧
      (handleUserOffense "u" "g2" true true ⟨[("u", ⟨1, false⟩)], [⟨"u", "g1", 1, "server", true⟩], [], [("g1", "u")]⟩).2
        = ⟨true, 2, true⟩) := by
  have h₁ := handleUserOffense_escalation "u" "g1" ⟨[("u", ⟨0, false⟩)], [], [], []⟩ ⟨0, false⟩ rfl
  have h₂ := handleUserOffense_escalation "u" "g2"
    ⟨[("u", ⟨1, false⟩)], [⟨"u", "g1", 1, "server", true⟩], [], [("g1", "u")]⟩ ⟨1, false⟩ rfl
  obtain ⟨hb₁, hr₁, -, -, hres₁⟩ := h₁.1 rfl
  obtain ⟨hb₂, -, hp₂, -, hres₂⟩ := h₂.2 (le_refl 1)
  exact ⟨⟨hb₁, hr₁, hres₁⟩, ⟨hb₂, hp₂, hres₂⟩⟩

/-- Counterexample for C3 as stated: the second offense of user "u" (in
guild g2) creates the level-2 `global_pending` row, but the moderator-review
table stays EMPTY — no pending ModeratorReviewItem is created, although the
claim requires one. -/
theorem handleUserOffense_no_review_item_counterexample :
    (handleUserOffense "u" "g2" true true ⟨[("u", ⟨1, false⟩)], [], [], []⟩).1.bans
        = [⟨"u", "g2", 2, "global_pending", false⟩] ∧
    findUserIn (handleUserOffense "u" "g2" true true ⟨[("u", ⟨1, false⟩)], [], [], []⟩).1.users "u"
        = some ⟨2, false⟩ ∧
    (handleUserOffense "u" "g2" true true ⟨[("u", ⟨1, false⟩)], [], [], []⟩).1.reviews = [] := by
  refine ⟨rfl, rfl, rfl⟩

theorem banFanout_spec (userId : String) (guilds : List (String × Bool)) (s : TMState) :
    (banFanout userId guilds s).users = s.users ∧
    (banFanout userId guilds s).timeouts = s.timeouts ∧
    (banFanout userId guilds s).banAttempts
        = s.banAttempts ++ guilds.map (fun p => (p.1, userId)) ∧
    (banFanout userId guilds s).bannedIn
        = s.bannedIn ++ (guilds.filter (fun p => p.2)).map (fun p => (p.1, userId)) := by
  induction guilds generalizing s with
  | nil => simp [banFanout]
  | cons g rest ih =>
    obtain ⟨gid, ok⟩ := g
    have h := ih { s with banAttempts := s.banAttempts ++ [(gid, userId)],
                          bannedIn := if ok then s.bannedIn ++ [(gid, userId)] else s.bannedIn }
    simp only [banFanout]
    refine ⟨h.1, h.2.1, ?_, ?_⟩
    · rw [h.2.2.1]
      simp
    · rw [h.2.2.2]
      cases ok <;> simp [List.filter_cons]

/-- C4 (confirmed): approving a pending global ban (for a user whose record
exists) reports success, sets the user's globallyBanned flag, transitions
every one of the user's `pending_review` rows to `global_approved` with
active=true, and attempts a ban in EVERY guild the bot serves, in order —
attempts cover the whole guild list whatever the per-guild outcomes, so a
failed ban in one guild does not abort the remaining fan-out iterations, and
the operation still returns true. -/
theorem approveGlobalBan_props (userId : String) (guilds : List (String × Bool))
    (s : TMState) (r : UserRec) (hu : findUserIn s.users userId = some r) :
    (approveGlobalBan userId guilds s).2 = true ∧
    findUserIn (approveGlobalBan userId guilds s).1.users userId
        = some ⟨r.offenseCount, true⟩ ∧
    (∀ t ∈ s.timeouts, t.userId = userId → t.timeoutType = "pending_review" →
      ({ t with timeoutType := "global_approved", active := true } : TimeoutRec)
        ∈ (approveGlobalBan userId guilds s).1.timeouts) ∧
    (approveGlobalBan userId guilds s).1.banAttempts
        = s.banAttempts ++ guilds.map (fun p => (p.1, userId)) ∧
    (approveGlobalBan userId guilds s).1.bannedIn
        = s.bannedIn ++ (guilds.filter (fun p => p.2)).map (fun p => (p.1, userId)) := by
  have hu' : (findUserIn s.users userId).isSome = true := by rw [hu]; rfl
  have happ : approveGlobalBan userId guilds s =
      (banFanout userId guilds
        { s with users := updateUserIn s.users userId (fun x => { x with globallyBanned := true }),
                 timeouts := s.timeouts.map (approveUpdate userId) }, true) := by
    simp [approveGlobalBan, hu']
  have hb := banFanout_spec userId guilds
    { s with users := updateUserIn s.users userId (fun x => { x with globallyBanned := true }),
             timeouts := s.timeouts.map (approveUpdate userId) }
  rw [happ]
  refine ⟨rfl, ?_, ?_, ?_, ?_⟩
  · show findUserIn (banFanout userId guilds _).users userId = _
    rw [hb.1]
    show findUserIn (updateUserIn s.users userId (fun x => { x with globallyBanned := true })) userId = _
    rw [findUserIn_updateUserIn, hu]
    rfl
  · intro t ht h1 h2
    show _ ∈ (banFanout userId guilds _).timeouts
    rw [hb.2.1]
    show _ ∈ s.timeouts.map (approveUpdate userId)
    have heq : approveUpdate userId t = { t with timeoutType := "global_approved", active := true } := by
      simp [approveUpdate, h1, h2]
    rw [← heq]
    exact List.mem_map_of_mem _ ht
  · exact hb.2.2.1
  · exact hb.2.2.2

/-- Witness for C4: user "u" with a pending review row; approval over guilds
g1 (ban succeeds), g2 (ban fails), g3 (ban succeeds) returns true, flags the
user globally banned, approves the pending row, attempts all three guilds —
the failure at g2 does not stop g3 — and lands the ban in g1 and g3. -/
theorem approveGlobalBan_props_witness :
    (approveGlobalBan "u" [("g1", true), ("g2", false), ("g3", true)]
        ⟨[("u", ⟨2, false⟩)], [⟨"u", "g2", 2, "pending_review", false⟩], [], []⟩).2 = true ∧
    findUserIn (approveGlobalBan "u" [("g1", true), ("g2", false), ("g3", true)]
        ⟨[("u", ⟨2, false⟩)], [⟨"u", "g2", 2, "pending_review", false⟩], [], []⟩).1.users "u"
      = some ⟨2, true⟩ ∧
    (⟨"u", "g2", 2, "global_approved", true⟩ : TimeoutRec)
      ∈ (approveGlobalBan "u" [("g1", true), ("g2", false), ("g3", true)]
        ⟨[("u", ⟨2, false⟩)], [⟨"u", "g2", 2, "pending_review", false⟩], [], []⟩).1.timeouts ∧
    (approveGlobalBan "u" [("g1", true), ("g2", false), ("g3", true)]
        ⟨[("u", ⟨2, false⟩)], [⟨"u", "g2", 2, "pending_review", false⟩], [], []⟩).1.banAttempts
      = [("g1", "u"), ("g2", "u"), ("g3", "u")] ∧
    (approveGlobalBan "u" [("g1", true), ("g2", false), ("g3", true)]
        ⟨[("u", ⟨2, false⟩)], [⟨"u", "g2", 2, "pending_review", false⟩], [], []⟩).1.bannedIn
      = [("g1", "u"), ("g3", "u")] := by
  have h := approveGlobalBan_props "u" [("g1", true), ("g2", false), ("g3", true)]
    ⟨[("u", ⟨2, false⟩)], [⟨"u", "g2", 2, "pending_review", false⟩], [], []⟩ ⟨2, false⟩ rfl
  refine ⟨h.1, h.2.1, ?_, ?_, ?_⟩
  · exact h.2.2.1 ⟨"u", "g2", 2, "pending_review", false⟩ (by simp) rfl rfl
  · rw [h.2.2.2.1]; rfl
  · rw [h.2.2.2.2]; rfl

theorem rejectUpdate_idem (userId : String) (t : TimeoutRec) :
    rejectUpdate userId (rejectUpdate userId t) = rejectUpdate userId t := by
  by_cases h : t.userId = userId ∧ t.timeoutType = "pending_review"
  · simp [rejectUpdate, h]
  · simp [rejectUpdate, h]

/-- C6 (confirmed): rejecting a pending global-ban review returns true,
transitions every one of the user's `pending_review` rows to
`global_rejected` with active=false, applies no sanction (the user rows, ban
attempts and applied bans are untouched — in particular offenseCount is
unchanged), and a second rejection is exactly idempotent: it returns the same
state unchanged. -/
theorem rejectGlobalBan_props (userId : String) (s : TMState) :
    (rejectGlobalBan userId s).2 = true ∧
    (rejectGlobalBan userId s).1.users = s.users ∧
    (rejectGlobalBan userId s).1.banAttempts = s.banAttempts ∧
    (rejectGlobalBan userId s).1.bannedIn = s.bannedIn ∧
    (∀ t ∈ s.timeouts, t.userId = userId → t.timeoutType = "pending_review" →
      ({ t with timeoutType := "global_rejected", active := false } : TimeoutRec)
        ∈ (rejectGlobalBan userId s).1.timeouts) ∧
    rejectGlobalBan userId (rejectGlobalBan userId s).1 = ((rejectGlobalBan userId s).1, true) := by
  have hmm : (s.timeouts.map (rejectUpdate userId)).map (rejectUpdate userId)
      = s.timeouts.map (rejectUpdate userId) := by
    rw [List.map_map]
    exact List.map_congr_left (fun a _ => rejectUpdate_idem userId a)
  refine ⟨rfl, rfl, rfl, rfl, ?_, ?_⟩
  · intro t ht h1 h2
    have heq : rejectUpdate userId t = { t with timeoutType := "global_rejected", active := false } := by
      simp [rejectUpdate, h1, h2]
    rw [← heq]
    exact List.mem_map_of_mem _ ht
  · simp only [rejectGlobalBan]
    rw [hmm]

/-- Witness for C6: user "u" with one pending review row; rejection leaves the
user rows (offenseCount 2) untouched, rewrites the row to global_rejected and
inactive, and a second rejection changes nothing. -/
theorem rejectGlobalBan_props_witness :
    (rejectGlobalBan "u" ⟨[("u", ⟨2, false⟩)], [⟨"u", "g2", 2, "pending_review", false⟩], [], []⟩).1.users
      = [("u", ⟨2, false⟩)] ∧
    (⟨"u", "g2", 2, "global_rejected", false⟩ : TimeoutRec)
      ∈ (rejectGlobalBan "u" ⟨[("u", ⟨2, false⟩)], [⟨"u", "g2", 2, "pending_review", false⟩], [], []⟩).1.timeouts ∧
    rejectGlobalBan "u" (rejectGlobalBan "u" ⟨[("u", ⟨2, false⟩)], [⟨"u", "g2", 2, "pending_review", false⟩], [], []⟩).1
      = ((rejectGlobalBan "u" ⟨[("u", ⟨2, false⟩)], [⟨"u", "g2", 2, "pending_review", false⟩], [], []⟩).1, true) := by
  have h := rejectGlobalBan_props "u"
    ⟨[("u", ⟨2, false⟩)], [⟨"u", "g2", 2, "pending_review", false⟩], [], []⟩
  refine ⟨h.2.1, ?_, h.2.2.2.2.2⟩
  exact h.2.2.2.2.1 ⟨"u", "g2", 2, "pending_review", false⟩ (by simp) rfl rfl

theorem processNext_preserves (N : ℕ) (s : QueueState)
    (h₁ : s.processing ≤ N) (h₂ : s.admitted ++ s.queue = s.submitted) :
    (processNext N s).processing ≤ N ∧
    (processNext N s).admitted ++ (processNext N s).queue = (processNext N s).submitted := by
  by_cases hle : N ≤ s.processing
  · simp only [processNext, if_pos hle]
    exact ⟨h₁, h₂⟩
  · rcases hq : s.queue with _ | ⟨r, rest⟩
    · simp only [processNext, if_neg hle, hq]
      exact ⟨h₁, hq ▸ h₂⟩
    · constructor
      · simp only [processNext, if_neg hle, hq]
        show s.processing + 1 ≤ N
        omega
      · simp only [processNext, if_neg hle, hq]
        show (s.admitted ++ [r]) ++ rest = s.submitted
        rw [List.append_assoc, List.singleton_append, ← hq]
        exact h₂

/-- C8 (confirmed): in every state the queue can reach, the in-flight counter
never exceeds `maxConcurrentScans = N`, and admission is FIFO relative to
submission: the admission history followed by the pending queue always equals
the submission history, so each `processNext` admits exactly the oldest
queued request. -/
theorem queue_bounded_fifo (N : ℕ) (s : QueueState) (h : ReachableQueue N s) :
    s.processing ≤ N ∧ s.admitted ++ s.queue = s.submitted := by
  induction h with
  | init => exact ⟨Nat.zero_le N, rfl⟩
  | @step u t hr hstep ih =>
    cases hstep with
    | submit r v =>
      refine processNext_preserves N _ ih.1 ?_
      show u.admitted ++ (u.queue ++ [r]) = u.submitted ++ [r]
      rw [← List.append_assoc, ih.2]
    | complete v hp =>
      exact processNext_preserves N _ (le_trans (Nat.sub_le _ _) ih.1) ih.2

/-- Witness for C8 with N = 1 and two submissions: after submitting requests
0 and 1, request 0 is in flight (1 ≤ 1) and request 1 waits in the queue;
the admission history [0] followed by the queue [1] is the submission order
[0, 1]. -/
theorem queue_bounded_fifo_witness :
    ((⟨[1], 1, [0], [0, 1]⟩ : QueueState).processing ≤ 1) ∧
    (⟨[1], 1, [0], [0, 1]⟩ : QueueState).admitted ++ (⟨[1], 1, [0], [0, 1]⟩ : QueueState).queue
      = (⟨[1], 1, [0], [0, 1]⟩ : QueueState).submitted := by
  have h₀ : ReachableQueue 1 initQueue := ReachableQueue.init
  have h₁ : ReachableQueue 1 (⟨[], 1, [0], [0]⟩ : QueueState) :=
    h₀.step (QueueStep.submit 0 initQueue)
  have h₂ : ReachableQueue 1 (⟨[1], 1, [0], [0, 1]⟩ : QueueState) :=
    h₁.step (QueueStep.submit 1 ⟨[], 1, [0], [0]⟩)
  exact queue_bounded_fifo 1 _ h₂

theorem find_latest_row (msgId detId : String) (fl : Bool) (act : String)
    (l : List DetectionRecordRow) :
    ((l ++ [(⟨detId, msgId, fl, act⟩ : DetectionRecordRow)]).reverse).find?
        (fun x => x.messageId = msgId) = some (⟨detId, msgId, fl, act⟩ : DetectionRecordRow) := by
  rw [List.reverse_append]
  exact List.find?_cons_of_pos _ (by simp)

theorem handleReviewRequired_found (msgId : String) (s : MsgState) (r : DetectionRecordRow)
    (hf : s.detections.reverse.find? (fun x => x.messageId = msgId) = some r) :
    handleReviewRequired msgId s
      = { s with reviews := s.reviews ++ [⟨r.id, "pending"⟩],
                 reviewNotified := s.reviewNotified ++ [r.id] } := by
  unfold handleReviewRequired
  rw [hf]

theorem processImageAttachment_review_eq (msgId userId guildId detId : String)
    (d : DetectionResult) (autoDelete autoBan : Bool) (s : MsgState)
    (hrev : d.requiresReview = true) :
    processImageAttachment msgId userId guildId detId d autoDelete autoBan s
      = handleReviewRequired msgId
          { s with detections := s.detections
              ++ [⟨detId, msgId, d.flagged, if d.flagged then "pending" else "none"⟩] } := by
  simp [processImageAttachment, hrev]

theorem processImageAttachment_pass_eq (msgId userId guildId detId : String)
    (d : DetectionResult) (autoDelete autoBan : Bool) (s : MsgState)
    (hfl : d.flagged = false) (hrev : d.requiresReview = false) :
    processImageAttachment msgId userId guildId detId d autoDelete autoBan s
      = { s with detections := s.detections
            ++ [⟨detId, msgId, d.flagged, if d.flagged then "pending" else "none"⟩] } := by
  simp [processImageAttachment, hfl, hrev]

/-- C10 (confirmed): in the message-handling dispatch the review path takes
precedence — whenever requiresReview=true (whatever the value of flagged),
the handler creates a pending moderator-review row for the just-persisted
detection and notifies moderators, and it neither deletes the message nor
invokes the offense-escalation routine; conversely, a deletion or an
escalation can only have happened when flagged=true and requiresReview=false. -/
theorem processImageAttachment_review_precedence (msgId userId guildId detId : String)
    (d : DetectionResult) (autoDelete autoBan : Bool) (s : MsgState) :
    (d.requiresReview = true →
      (processImageAttachment msgId userId guildId detId d autoDelete autoBan s).reviews
          = s.reviews ++ [⟨detId, "pending"⟩] ∧
      (processImageAttachment msgId userId guildId detId d autoDelete autoBan s).reviewNotified
          = s.reviewNotified ++ [detId] ∧
      (processImageAttachment msgId userId guildId detId d autoDelete autoBan s).deletedMessages
          = s.deletedMessages ∧
      (processImageAttachment msgId userId guildId detId d autoDelete autoBan s).offenseHandled
          = s.offenseHandled) ∧
    ((processImageAttachment msgId userId guildId detId d autoDelete autoBan s).deletedMessages
          ≠ s.deletedMessages ∨
      (processImageAttachment msgId userId guildId detId d autoDelete autoBan s).offenseHandled
          ≠ s.offenseHandled →
      d.flagged = true ∧ d.requiresReview = false) := by
  have hreview : d.requiresReview = true →
      processImageAttachment msgId userId guildId detId d autoDelete autoBan s
        = { s with
            detections := s.detections
              ++ [⟨detId, msgId, d.flagged, if d.flagged then "pending" else "none"⟩],
            reviews := s.reviews ++ [⟨detId, "pending"⟩],
            reviewNotified := s.reviewNotified ++ [detId] } := by
    intro hrev
    rw [processImageAttachment_review_eq msgId userId guildId detId d autoDelete autoBan s hrev]
    exact handleReviewRequired_found msgId _
      ⟨detId, msgId, d.flagged, if d.flagged then "pending" else "none"⟩
      (find_latest_row msgId detId d.flagged _ s.detections)
  constructor
  · intro hrev
    rw [hreview hrev]
    exact ⟨rfl, rfl, rfl, rfl⟩
  · intro hch
    rcases hrv : d.requiresReview with _ | _
    · rcases hfl : d.flagged with _ | _
      · exfalso
        have hps := processImageAttachment_pass_eq msgId userId guildId detId d
          autoDelete autoBan s hfl hrv
        rcases hch with hch | hch <;> exact hch (by rw [hps])
      · exact ⟨rfl, rfl⟩
    · exfalso
      have hps := hreview hrv
      rcases hch with hch | hch <;> exact hch (by rw [hps])

/-- Witness for C10: a detection with flagged=true AND requiresReview=true
takes the review path — a pending review row for detection d1 is created, no
message is deleted and no offense is escalated — while a flagged-only
detection ("m2", requiresReview=false) does delete, exercising the converse
direction. -/
theorem processImageAttachment_review_precedence_witness :
    (processImageAttachment "m" "u" "g" "d1" ⟨true, 0, "sightengine", true, "h"⟩ true true
        ⟨[], [], [], [], []⟩).reviews = [⟨"d1", "pending"⟩] ∧
    (processImageAttachment "m" "u" "g" "d1" ⟨true, 0, "sightengine", true, "h"⟩ true true
        ⟨[], [], [], [], []⟩).deletedMessages = [] ∧
    (processImageAttachment "m" "u" "g" "d1" ⟨true, 0, "sightengine", true, "h"⟩ true true
        ⟨[], [], [], [], []⟩).offenseHandled = [] ∧
    ((⟨true, 0, "sightengine", false, "h"⟩ : DetectionResult).flagged = true ∧
      (⟨true, 0, "sightengine", false, "h"⟩ : DetectionResult).requiresReview = false) := by
  have h₁ := processImageAttachment_review_precedence "m" "u" "g" "d1"
    ⟨true, 0, "sightengine", true, "h"⟩ true true ⟨[], [], [], [], []⟩
  have h₂ := processImageAttachment_review_precedence "m2" "u" "g" "d2"
    ⟨true, 0, "sightengine", false, "h"⟩ true true ⟨[], [], [], [], []⟩
  obtain ⟨hrev, hnot, hdel, hoff⟩ := h₁.1 rfl
  exact ⟨hrev, hdel, hoff, h₂.2 (Or.inl (by decide))⟩
